import Mathlib

/-!
Verification of the Product-Card-Generator compositing core.

This file gives a shallow embedding, in Lean 4, of the pure logic of the
repository under verification:

- src/src/point_validator.py        (PointValidator)
- src/src/color_analyzer.py         (ColorAnalyzer)
- src/src/skin_detector.py          (SkinDetector)
- src/src/psd_processor.py          (PSDProcessor: render-mode selection,
                                     photo-layer classification)
- src/src/perspective_transformer.py (PerspectiveTransformer.transform_multiple)

Modelling conventions:
- Python ints are Int or Nat; Python floats and numpy float arrays are
  modelled with exact rational arithmetic over Rat.
- Images are finite pixel lists; external library kernels that are not part
  of the repository (cv2.warpPerspective, cv2.GaussianBlur, sklearn KMeans,
  PIL resizing) are abstracted as explicit function parameters, while every
  piece of control flow and arithmetic written in the repository itself is
  translated statement by statement.
- Python exceptions are modelled with Except; a raised ValidationError or
  FileNotFoundError becomes an Except.error value.
-/

set_option autoImplicit false

namespace ProductCardGen

/-- A 2D point with integer pixel coordinates, as used by the point lists of
point_validator.py. -/
abbrev Point := Int × Int

namespace PointValidator

/-- Embedding of the local function ccw inside
PointValidator.is_self_intersecting: strict comparison
(c.y - a.y) * (b.x - a.x) > (b.y - a.y) * (c.x - a.x). -/
def ccw (a b c : Point) : Bool :=
  (c.2 - a.2) * (b.1 - a.1) > (b.2 - a.2) * (c.1 - a.1)

/-- Embedding of segments_intersect from PointValidator.is_self_intersecting. -/
def segments_intersect (p1 p2 p3 p4 : Point) : Bool :=
  (ccw p1 p3 p4 != ccw p2 p3 p4) && (ccw p1 p2 p3 != ccw p1 p2 p4)

/-- Embedding of PointValidator.is_self_intersecting: for a 4-point list it
tests the two pairs of opposite boundary edges
(edge 0 = p0p1 against edge 2 = p2p3, and edge 1 = p1p2 against
edge 3 = p3p0); any list of a different length counts as intersecting. -/
def is_self_intersecting (points : List Point) : Bool :=
  match points with
  | [p0, p1, p2, p3] =>
      segments_intersect p0 p1 p2 p3 || segments_intersect p1 p2 p3 p0
  | _ => true

/-- Embedding of PointValidator.validate_points.  The image_width and
image_height arguments are accepted and, exactly as in the source, never
inspected: there is no coordinate-bounds check.  A ValidationError raise is
modelled as Except.error with the message of the source. -/
def validate_points (points : List Point) (imageWidth imageHeight : Nat) :
    Except String Unit :=
  let _ := imageWidth
  let _ := imageHeight
  if points.length ≠ 4 then
    Except.error "Expected 4 corner points"
  else if is_self_intersecting points then
    Except.error "Corner points form a self-intersecting quadrilateral"
  else
    Except.ok ()

/-- Modelled from the claim wording, for comparison with the code: the test
that the two diagonals of the quadrilateral, points 0 to 2 and
points 1 to 3, cross (using the same ccw segment-intersection primitive as
the source). -/
def claim_diagonals_cross (points : List Point) : Bool :=
  match points with
  | [p0, p1, p2, p3] => segments_intersect p0 p2 p1 p3
  | _ => false

end PointValidator

/-! ## PSDProcessor: render-mode selection (psd_processor.py) -/

namespace PSDProcessor

/-- Embedding of the dataclass LayerRenderResult of psd_processor.py.  The
image payload (a PIL image) and the diagnostic fields error and method_used
are irrelevant to every length computation performed by
_determine_render_mode and are omitted. -/
structure LayerRenderResult where
  layerName : String
  success : Bool
  isPhoto : Bool := false
  deriving Repr, DecidableEq

/-- PSDProcessor.PARTIAL_RENDER_THRESHOLD = 0.5 (named renderThreshold here). -/
def renderThreshold : ℚ := 1 / 2

/-- Embedding of PSDProcessor._determine_render_mode: chooses the rendering
mode from the three layer groups (successes before the product layer,
successes after it, failures). -/
def determine_render_mode (beforeProduct afterProduct failedLayers :
    List LayerRenderResult) : String :=
  let totalLayers := beforeProduct.length + afterProduct.length + failedLayers.length
  let successfulLayers := beforeProduct.length + afterProduct.length
  if totalLayers = 0 then
    "composite_fallback"
  else if successfulLayers = 0 then
    "composite_fallback"
  else
    let successRatio : ℚ := (successfulLayers : ℚ) / (totalLayers : ℚ)
    if failedLayers.length = 0 then
      "layer_by_layer"
    else if successRatio ≥ renderThreshold then
      "layer_by_layer"
    else
      "hybrid"

/-- A sample successfully rendered layer, used for concrete instances. -/
def okLayer : LayerRenderResult := { layerName := "bg", success := true }

/-- A sample failed layer, used for concrete instances. -/
def badLayer : LayerRenderResult :=
  { layerName := "blob", success := false }

end PSDProcessor

/-! ## PerspectiveTransformer.transform_multiple (perspective_transformer.py)

The numeric kernels that live in external libraries (cv2.warpPerspective,
cv2.getPerspectiveTransform, cv2.GaussianBlur inside
_warp_product_to_points, and the center-sampling average inside
_apply_color_blend) are abstracted as fields of TransformEnv; every
selection, conversion, error-capture and compositing statement written in
transform_multiple itself is translated directly. -/

namespace PerspectiveTransformer

/-- A cv2/numpy image: a channel count together with a row-major pixel
list; each pixel is the list of its channel values (uint8 range 0..255).
channels = 1 models a grayscale array of numpy shape (h, w). -/
structure CvImage where
  channels : Nat
  data : List (List Nat)
  deriving Repr, DecidableEq

/-- The template conversion at the head of transform_multiple: a 3-channel
template goes through cv2.cvtColor BGR2BGRA, which appends an opaque alpha
channel (255) to every pixel; any other template is returned as a copy. -/
def templateToBGRA (t : CvImage) : CvImage :=
  if t.channels = 3 then
    { channels := 4, data := t.data.map (fun px => px ++ [255]) }
  else t

/-- The BGRA normalization applied to a loaded product inside the loop of
transform_multiple: grayscale goes through GRAY2BGRA (the gray value is
replicated into b, g, r with opaque alpha), 3-channel through BGR2BGRA,
anything else is kept as is. -/
def productToBGRA (p : CvImage) : CvImage :=
  if p.channels = 1 then
    { channels := 4,
      data := p.data.map (fun px =>
        match px with
        | [v] => [v, v, v, 255]
        | other => other) }
  else if p.channels = 3 then
    { channels := 4, data := p.data.map (fun px => px ++ [255]) }
  else p

/-- Per-pixel alpha compositing from the inner loop of transform_multiple:
for each color channel c, out = alpha * warped_c + (1 - alpha) * result_c
with alpha = warped_alpha / 255, followed by the uint8 cast (truncation
toward zero, here Nat division by 255); the result alpha channel is left
unchanged.  The float32 arithmetic of the source is modelled exactly over
the rationals, which the single division by 255 keeps in Nat form. -/
def compositePix (rp wp : List Nat) : List Nat :=
  match rp, wp with
  | [rb, rg, rr, ra], [wb, wg, wr, wa] =>
      [(wa * wb + (255 - wa) * rb) / 255,
       (wa * wg + (255 - wa) * rg) / 255,
       (wa * wr + (255 - wa) * rr) / 255,
       ra]
  | _, _ => rp

/-- Compositing a warped BGRA product over the running result buffer
(pixelwise; both buffers have template resolution in the source, so the
pixel lists are aligned). -/
def compositeAlpha (result warped : CvImage) : CvImage :=
  { channels := result.channels,
    data := List.zipWith compositePix result.data warped.data }

/-- The collaborators of transform_multiple that live outside the file
under verification: the filesystem probe (Path.exists), the image loader
(load_image_cv2, returning none for an undecodable file), the perspective
warp of a BGRA product to a destination point set
(_warp_product_to_points) and the color blend against the current result
buffer (_apply_color_blend). -/
structure TransformEnv where
  fileExists : String → Bool
  loadImage : String → Option CvImage
  warpTo : CvImage → List Point → CvImage
  blend : CvImage → CvImage → CvImage

/-- Python Path(p).name: the final path component. -/
def baseName (s : String) : String := (s.splitOn "/").getLastD s

/-- The message of the FileNotFoundError raised for a missing product. -/
def notFoundMsg (p : String) : String :=
  "FileNotFoundError: Product image not found: " ++ p

/-- The message of the ValueError raised for an undecodable product. -/
def decodeFailMsg (p : String) : String :=
  "ValueError: Failed to load product image: " ++ p

/-- Product selection for point-set index i in transform_multiple:
use productPaths[i] when that entry exists and is non-null, otherwise cycle
through the non-null subset by i mod count when it is nonempty, otherwise
skip the area. -/
def selectProduct (productPaths : List (Option String))
    (validPaths : List String) (i : Nat) : Option String :=
  match productPaths.get? i with
  | some (some p) => some p
  | _ =>
      if 0 < validPaths.length then validPaths.get? (i % validPaths.length)
      else none

/-- One iteration of the loop of transform_multiple over (index, point
set), threading the (result, errors) accumulator: a missing or undecodable
product is captured as a (basename, message) pair and leaves the result
untouched; a loaded product is normalized to BGRA, warped to the point
set, blended against the current result when blend strength is positive,
and alpha-composited onto the result. -/
def areaStep (env : TransformEnv) (blendStrength : ℚ)
    (productPaths : List (Option String)) (validPaths : List String)
    (acc : CvImage × List (String × String)) (ips : Nat × List Point) :
    CvImage × List (String × String) :=
  match selectProduct productPaths validPaths ips.1 with
  | none => acc
  | some pathStr =>
      if env.fileExists pathStr then
        match env.loadImage pathStr with
        | none => (acc.1, acc.2 ++ [(baseName pathStr, decodeFailMsg pathStr)])
        | some product =>
            let product := productToBGRA product
            let warped := env.warpTo product ips.2
            let warped :=
              if 0 < blendStrength then env.blend warped acc.1 else warped
            (compositeAlpha acc.1 warped, acc.2)
      else (acc.1, acc.2 ++ [(baseName pathStr, notFoundMsg pathStr)])

/-- Embedding of PerspectiveTransformer.transform_multiple: the empty path
list returns the BGRA template copy with no errors; otherwise the point
sets are processed in order over the running (result, errors) accumulator. -/
def transform_multiple (template : CvImage) (pointSets : List (List Point))
    (blendStrength : ℚ) (env : TransformEnv)
    (productPaths : List (Option String)) :
    CvImage × List (String × String) :=
  if productPaths = [] then (templateToBGRA template, [])
  else
    let validPaths := productPaths.filterMap id
    pointSets.enum.foldl (areaStep env blendStrength productPaths validPaths)
      (templateToBGRA template, [])

/-- The effect of one loop iteration on the result buffer alone: identical
to areaStep except that a failed area leaves the buffer unchanged and no
error is recorded. -/
def areaSuccessStep (env : TransformEnv) (blendStrength : ℚ)
    (productPaths : List (Option String)) (validPaths : List String)
    (result : CvImage) (ips : Nat × List Point) : CvImage :=
  match selectProduct productPaths validPaths ips.1 with
  | none => result
  | some pathStr =>
      if env.fileExists pathStr then
        match env.loadImage pathStr with
        | none => result
        | some product =>
            let product := productToBGRA product
            let warped := env.warpTo product ips.2
            let warped :=
              if 0 < blendStrength then env.blend warped result else warped
            compositeAlpha result warped
      else result

/-- The error entries contributed by one loop iteration: the
(basename, message) pair of a missing or undecodable product, nothing for a
skipped or successful area. -/
def areaErrorLog (env : TransformEnv)
    (productPaths : List (Option String)) (validPaths : List String)
    (ips : Nat × List Point) : List (String × String) :=
  match selectProduct productPaths validPaths ips.1 with
  | none => []
  | some pathStr =>
      if env.fileExists pathStr then
        match env.loadImage pathStr with
        | none => [(baseName pathStr, decodeFailMsg pathStr)]
        | some _ => []
      else [(baseName pathStr, notFoundMsg pathStr)]

theorem areaStep_eq (env : TransformEnv) (bs : ℚ)
    (pp : List (Option String)) (vp : List String)
    (acc : CvImage × List (String × String)) (ips : Nat × List Point) :
    areaStep env bs pp vp acc ips =
      (areaSuccessStep env bs pp vp acc.1 ips,
       acc.2 ++ areaErrorLog env pp vp ips) := by
  rcases acc with ⟨r, e⟩
  simp only [areaStep, areaSuccessStep, areaErrorLog]
  cases hsel : selectProduct pp vp ips.1 with
  | none => simp
  | some pathStr =>
      by_cases hf : env.fileExists pathStr
      · simp only [hf, if_true]
        cases env.loadImage pathStr <;> simp
      · simp [hf]

theorem foldl_areaStep (env : TransformEnv) (bs : ℚ)
    (pp : List (Option String)) (vp : List String)
    (l : List (Nat × List Point)) :
    ∀ r e, l.foldl (areaStep env bs pp vp) (r, e) =
      (l.foldl (areaSuccessStep env bs pp vp) r,
       e ++ l.flatMap (areaErrorLog env pp vp)) := by
  induction l with
  | nil => intro r e; simp
  | cons x xs ih =>
      intro r e
      simp only [List.foldl_cons, List.flatMap_cons]
      rw [areaStep_eq, ih]
      simp [List.append_assoc]

/-- A concrete template, product and environment used by concrete
instances: the template is a 3-channel one-pixel image, the product loader
decodes every path, files exist exactly when the path is good.png, the
warp and blend kernels are the identity in the relevant argument. -/
def sampleTemplate : CvImage := { channels := 3, data := [[10, 20, 30]] }

/-- A one-pixel BGRA product for concrete instances. -/
def sampleProduct : CvImage := { channels := 4, data := [[1, 2, 3, 255]] }

/-- A concrete environment for witnesses: only good.png exists on disk. -/
def sampleEnv : TransformEnv :=
  { fileExists := fun s => s == "good.png"
    loadImage := fun _ => some sampleProduct
    warpTo := fun img _ => img
    blend := fun w _ => w }

end PerspectiveTransformer

/-- Claim C2: per-area product selection in transform_multiple.  If entry i
of the product-path list exists and is non-null it is used for area i;
otherwise, when the list contains any non-null path, area i uses the
(i mod count)-th element of the non-null subset; otherwise area i is
skipped.  With 3 point sets and exactly one valid product path, that same
product is warped (and composited) into all three areas. -/
theorem claim_C2 (productPaths : List (Option String)) (i : Nat) (p : String)
    (env : PerspectiveTransformer.TransformEnv)
    (template prod : PerspectiveTransformer.CvImage)
    (ps0 ps1 ps2 : List Point) :
    (productPaths.get? i = some (some p) →
      PerspectiveTransformer.selectProduct productPaths
        (productPaths.filterMap id) i = some p) ∧
    ((∀ q : String, productPaths.get? i ≠ some (some q)) →
      productPaths.filterMap id ≠ [] →
      PerspectiveTransformer.selectProduct productPaths
          (productPaths.filterMap id) i =
        (productPaths.filterMap id).get?
          (i % (productPaths.filterMap id).length)) ∧
    (productPaths.filterMap id = [] →
      (∀ q : String, productPaths.get? i ≠ some (some q)) →
      PerspectiveTransformer.selectProduct productPaths
        (productPaths.filterMap id) i = none) ∧
    (env.fileExists "good.png" = true →
      env.loadImage "good.png" = some prod →
      PerspectiveTransformer.transform_multiple template [ps0, ps1, ps2]
          (1 / 4) env [some "good.png"] =
        (let w := PerspectiveTransformer.productToBGRA prod
         let r0 := PerspectiveTransformer.templateToBGRA template
         let r1 := PerspectiveTransformer.compositeAlpha r0
           (env.blend (env.warpTo w ps0) r0)
         let r2 := PerspectiveTransformer.compositeAlpha r1
           (env.blend (env.warpTo w ps1) r1)
         (PerspectiveTransformer.compositeAlpha r2
           (env.blend (env.warpTo w ps2) r2), []))) := by
  refine ⟨?_, ?_, ?_, ?_⟩
  · intro hget
    unfold PerspectiveTransformer.selectProduct
    rw [hget]
  · intro hno hne
    simp only [PerspectiveTransformer.selectProduct]
    have hlen : 0 < (productPaths.filterMap id).length :=
      List.length_pos.mpr hne
    cases hget : productPaths.get? i with
    | none => simp [hlen]
    | some o =>
        cases o with
        | none => simp [hlen]
        | some q => exact absurd hget (hno q)
  · intro hempty hno
    simp only [PerspectiveTransformer.selectProduct, hempty]
    cases hget : productPaths.get? i with
    | none => simp
    | some o =>
        cases o with
        | none => simp
        | some q => exact absurd hget (hno q)
  · intro hex hload
    have hstep : ∀ (acc : PerspectiveTransformer.CvImage ×
          List (String × String)) (j : Nat) (ps : List Point),
        PerspectiveTransformer.selectProduct [some "good.png"]
          (List.filterMap id [some "good.png"]) j = some "good.png" →
        PerspectiveTransformer.areaStep env (1 / 4) [some "good.png"]
            (List.filterMap id [some "good.png"]) acc (j, ps) =
          (PerspectiveTransformer.compositeAlpha acc.1
            (env.blend
              (env.warpTo (PerspectiveTransformer.productToBGRA prod) ps)
              acc.1), acc.2) := by
      intro acc j ps hsel
      simp only [PerspectiveTransformer.areaStep]
      rw [hsel]
      simp only [hex, if_true, hload]
      norm_num
    simp only [PerspectiveTransformer.transform_multiple,
      if_neg (show ¬([some "good.png"] : List (Option String)) = [] by simp)]
    simp only [List.enum, List.enumFrom, List.foldl_cons, List.foldl_nil]
    rw [hstep _ 0 ps0 (by decide), hstep _ 1 ps1 (by decide),
      hstep _ 2 ps2 (by decide)]

/-- Witness for claim C2: the concrete env and a one-element path list. -/
theorem claim_C2_witness :
    PerspectiveTransformer.transform_multiple
        PerspectiveTransformer.sampleTemplate [[], [], []] (1 / 4)
        PerspectiveTransformer.sampleEnv [some "good.png"] =
      (let w := PerspectiveTransformer.productToBGRA
        PerspectiveTransformer.sampleProduct
       let r0 := PerspectiveTransformer.templateToBGRA
        PerspectiveTransformer.sampleTemplate
       let r1 := PerspectiveTransformer.compositeAlpha r0
         (PerspectiveTransformer.sampleEnv.blend
           (PerspectiveTransformer.sampleEnv.warpTo w []) r0)
       let r2 := PerspectiveTransformer.compositeAlpha r1
         (PerspectiveTransformer.sampleEnv.blend
           (PerspectiveTransformer.sampleEnv.warpTo w []) r1)
       (PerspectiveTransformer.compositeAlpha r2
         (PerspectiveTransformer.sampleEnv.blend
           (PerspectiveTransformer.sampleEnv.warpTo w []) r2), [])) :=
  (claim_C2 [some "good.png"] 0 "good.png" PerspectiveTransformer.sampleEnv
      PerspectiveTransformer.sampleTemplate
      PerspectiveTransformer.sampleProduct [] [] []).2.2.2 rfl rfl

/-- Claim C3: a failure on one area of a multi-area transform never aborts
the call.  The returned error list is exactly the concatenation of the
per-area (basename, message) failure entries, the returned image is the
fold of the per-area success steps over the template alone (so sibling
areas still complete and the partial composited result is returned), and an
area whose selected product path does not exist contributes its
FileNotFoundError entry to the error list. -/
theorem claim_C3 (env : PerspectiveTransformer.TransformEnv) (bs : ℚ)
    (template : PerspectiveTransformer.CvImage)
    (pointSets : List (List Point)) (productPaths : List (Option String))
    (i : Nat) (ps : List Point) (p : String) :
    (productPaths ≠ [] →
      PerspectiveTransformer.transform_multiple template pointSets bs env
          productPaths =
        (pointSets.enum.foldl
          (PerspectiveTransformer.areaSuccessStep env bs productPaths
            (productPaths.filterMap id))
          (PerspectiveTransformer.templateToBGRA template),
         pointSets.enum.flatMap
          (PerspectiveTransformer.areaErrorLog env productPaths
            (productPaths.filterMap id)))) ∧
    (productPaths ≠ [] →
      (i, ps) ∈ pointSets.enum →
      PerspectiveTransformer.selectProduct productPaths
        (productPaths.filterMap id) i = some p →
      env.fileExists p = false →
      (PerspectiveTransformer.baseName p,
        PerspectiveTransformer.notFoundMsg p) ∈
        (PerspectiveTransformer.transform_multiple template pointSets bs env
          productPaths).2) := by
  have hmain : productPaths ≠ [] →
      PerspectiveTransformer.transform_multiple template pointSets bs env
          productPaths =
        (pointSets.enum.foldl
          (PerspectiveTransformer.areaSuccessStep env bs productPaths
            (productPaths.filterMap id))
          (PerspectiveTransformer.templateToBGRA template),
         pointSets.enum.flatMap
          (PerspectiveTransformer.areaErrorLog env productPaths
            (productPaths.filterMap id))) := by
    intro hne
    simp only [PerspectiveTransformer.transform_multiple, if_neg hne]
    rw [PerspectiveTransformer.foldl_areaStep]
    simp
  refine ⟨hmain, ?_⟩
  intro hne hmem hsel hex
  rw [hmain hne]
  simp only
  refine List.mem_flatMap.mpr ⟨(i, ps), hmem, ?_⟩
  simp [PerspectiveTransformer.areaErrorLog, hsel, hex]

/-- Witness for claim C3: two areas, the second path missing; its
FileNotFoundError entry appears in the returned error list. -/
theorem claim_C3_witness :
    (PerspectiveTransformer.baseName "missing.png",
      PerspectiveTransformer.notFoundMsg "missing.png") ∈
      (PerspectiveTransformer.transform_multiple
        PerspectiveTransformer.sampleTemplate [[], []] (1 / 4)
        PerspectiveTransformer.sampleEnv
        [some "good.png", some "missing.png"]).2 :=
  (claim_C3 PerspectiveTransformer.sampleEnv (1 / 4)
      PerspectiveTransformer.sampleTemplate [[], []]
      [some "good.png", some "missing.png"] 1 [] "missing.png").2
    (by decide) (by decide) rfl rfl

/-- Claim C10: calling the multi-area transform with an empty product-path
list returns the template unchanged pixel for pixel (a 3-channel template
is upgraded to 4 channels with full opacity 255, any other template is
returned as is) together with an empty error list; no warping, blending or
compositing is performed. -/
theorem claim_C10 (template : PerspectiveTransformer.CvImage)
    (pointSets : List (List Point)) (bs : ℚ)
    (env : PerspectiveTransformer.TransformEnv) :
    PerspectiveTransformer.transform_multiple template pointSets bs env [] =
      (PerspectiveTransformer.templateToBGRA template, []) ∧
    (template.channels = 3 →
      PerspectiveTransformer.templateToBGRA template =
        { channels := 4,
          data := template.data.map (fun px => px ++ [255]) }) ∧
    (template.channels ≠ 3 →
      PerspectiveTransformer.templateToBGRA template = template) := by
  refine ⟨?_, ?_, ?_⟩
  · simp [PerspectiveTransformer.transform_multiple]
  · intro h3
    simp [PerspectiveTransformer.templateToBGRA, h3]
  · intro h3
    simp [PerspectiveTransformer.templateToBGRA, h3]

/-- Witness for claim C10 at the concrete 3-channel sample template. -/
theorem claim_C10_witness :
    PerspectiveTransformer.templateToBGRA
        PerspectiveTransformer.sampleTemplate =
      { channels := 4, data := [[10, 20, 30, 255]] } :=
  (claim_C10 PerspectiveTransformer.sampleTemplate [] 0
      PerspectiveTransformer.sampleEnv).2.1 rfl

/-! ## ColorAnalyzer (color_analyzer.py)

The image is represented by its flat RGB pixel list (the pixels_flat array
obtained after the external PIL resize and RGB conversion; Lanczos
resampling of a constant image is constant, so uniform inputs stay
uniform).  The sklearn KMeans clustering is an external library call and is
abstracted as a function parameter; everything else is translated
statement by statement, with numpy float arithmetic carried out exactly
over the rationals. -/

namespace ColorAnalyzer

/-- An 8-bit RGB color, each channel in 0..255. -/
abbrev RGB := Nat × Nat × Nat

/-- Python round() over the rationals: round half to even. -/
def pyRound (q : ℚ) : ℤ :=
  let f := ⌊q⌋
  if q - f < 1 / 2 then f
  else if 1 / 2 < q - f then f + 1
  else if 2 ∣ f then f else f + 1

/-- int(round(x)) for nonnegative x, landing in Nat. -/
def toNatRound (q : ℚ) : Nat := (pyRound q).toNat

/-- Embedding of ColorAnalyzer._rgb_to_hsv for a single pixel: channels are
normalized to 0..1, hue is computed through the np.where overwrite chain of
the source (in which a later overwrite wins, so the priority order is
b, then g, then r), and the result is scaled to H in 0..360 and S, V in
0..255. -/
def rgbToHsvNp (px : RGB) : ℚ × ℚ × ℚ :=
  let r : ℚ := (px.1 : ℚ) / 255
  let g : ℚ := (px.2.1 : ℚ) / 255
  let b : ℚ := (px.2.2 : ℚ) / 255
  let maxc := max r (max g b)
  let minc := min r (min g b)
  let v := maxc
  let deltac := maxc - minc
  let s := if maxc ≠ 0 then deltac / maxc else 0
  let rc := if deltac ≠ 0 then (maxc - r) / deltac else 0
  let gc := if deltac ≠ 0 then (maxc - g) / deltac else 0
  let bc := if deltac ≠ 0 then (maxc - b) / deltac else 0
  let h1 := if r = maxc then bc - gc else 0
  let h2 := if g = maxc then 2 + rc - bc else h1
  let h3 := if b = maxc then 4 + gc - rc else h2
  let h := Int.fract (h3 / 6)
  (h * 360, s * 255, v * 255)

/-- Embedding of ColorAnalyzer._get_average_saturation: the mean of the S
channel, 0.0 for an empty pixel set. -/
def averageSaturation (hsv : List (ℚ × ℚ × ℚ)) : ℚ :=
  if hsv = [] then 0
  else (hsv.map (fun t => t.2.1)).sum / (hsv.length : ℚ)

/-- The filter of ColorAnalyzer._filter_pixels: a pixel is kept when
V ≥ 10, V ≤ 245 and S ≥ 10 (near-black, near-white and near-gray pixels
are discarded). -/
def validPixel (px : RGB) : Bool :=
  let hsv := rgbToHsvNp px
  decide (10 ≤ hsv.2.2) && decide (hsv.2.2 ≤ 245) && decide (10 ≤ hsv.2.1)

/-- colorsys.rgb_to_hsv over exact rationals (inputs and outputs in 0..1). -/
def colorsysRgbToHsv (r g b : ℚ) : ℚ × ℚ × ℚ :=
  let maxc := max r (max g b)
  let minc := min r (min g b)
  let v := maxc
  if minc = maxc then (0, 0, v)
  else
    let s := (maxc - minc) / maxc
    let rc := (maxc - r) / (maxc - minc)
    let gc := (maxc - g) / (maxc - minc)
    let bc := (maxc - b) / (maxc - minc)
    let h :=
      if r = maxc then bc - gc
      else if g = maxc then 2 + rc - bc
      else 4 + gc - rc
    (Int.fract (h / 6), s, v)

/-- colorsys.hsv_to_rgb over exact rationals.  Python int() truncation
agrees with the floor on the nonnegative hues produced by rgb_to_hsv. -/
def colorsysHsvToRgb (h s v : ℚ) : ℚ × ℚ × ℚ :=
  if s = 0 then (v, v, v)
  else
    let i0 : ℤ := ⌊h * 6⌋
    let f := h * 6 - (i0 : ℚ)
    let p := v * (1 - s)
    let q := v * (1 - s * f)
    let t := v * (1 - s * (1 - f))
    let i := i0 % 6
    if i = 0 then (v, t, p)
    else if i = 1 then (q, v, p)
    else if i = 2 then (p, v, t)
    else if i = 3 then (p, q, v)
    else if i = 4 then (t, p, v)
    else (v, p, q)

/-- Embedding of ColorAnalyzer._get_color_saturation: the colorsys
saturation of an RGB color on the 0..255 scale. -/
def colorSaturation (c : RGB) : ℚ :=
  (colorsysRgbToHsv ((c.1 : ℚ) / 255) ((c.2.1 : ℚ) / 255)
    ((c.2.2 : ℚ) / 255)).2.1 * 255

/-- Embedding of ColorAnalyzer._boost_saturation: HSV round-trip that
replaces the saturation with targetSat / 255 while keeping hue and value,
then rounds every channel back to an 8-bit integer with Python round(). -/
def boostSaturation (c : RGB) (targetSat : ℚ) : RGB :=
  let hsv := colorsysRgbToHsv ((c.1 : ℚ) / 255) ((c.2.1 : ℚ) / 255)
    ((c.2.2 : ℚ) / 255)
  let newS := targetSat / 255
  let rgbq := colorsysHsvToRgb hsv.1 newS hsv.2.2
  (toNatRound (rgbq.1 * 255), toNatRound (rgbq.2.1 * 255),
   toNatRound (rgbq.2.2 * 255))

/-- The exact rational color produced inside _boost_saturation for target
saturation 23, before the 8-bit rounding (channels in 0..1). -/
def boostPre (c : RGB) : ℚ × ℚ × ℚ :=
  let hsv := colorsysRgbToHsv ((c.1 : ℚ) / 255) ((c.2.1 : ℚ) / 255)
    ((c.2.2 : ℚ) / 255)
  colorsysHsvToRgb hsv.1 (23 / 255) hsv.2.2

/-- ColorAnalyzer.NEUTRAL_GRAY. -/
def NEUTRAL_GRAY : RGB := (128, 128, 128)

/-- The saturation validation tail of get_dominant_color: boost the
candidate to saturation 23 (MIN_RESULT_SATURATION + 3) when its saturation
is below 20 and the original unfiltered mean saturation was at least 30;
otherwise return the candidate unmodified. -/
def finalizeResult (originalAvgSaturation : ℚ) (result : RGB) : RGB :=
  if colorSaturation result < 20 ∧ 30 ≤ originalAvgSaturation then
    boostSaturation result 23
  else result

/-- The largest channel value of an RGB color (its 8-bit HSV value). -/
def maxChannel (c : RGB) : Nat := max c.1 (max c.2.1 c.2.2)

/-- Embedding of ColorAnalyzer.get_dominant_color on the flat pixel list of
the resized RGB image.  cluster models the sklearn KMeans call (fit on the
filtered pixels with the computed cluster count, then the centroid of the
most populated cluster, rounded to integers); the single-distinct-color
shortcut and every threshold test of the source are translated directly.
The filtered average saturation is computed and, exactly as in the source,
never used. -/
def get_dominant_color (nClusters : Nat) (cluster : Nat → List RGB → RGB)
    (pixels : List RGB) : RGB :=
  let originalHsv := pixels.map rgbToHsvNp
  let originalAvgSaturation := averageSaturation originalHsv
  if originalAvgSaturation < 15 then NEUTRAL_GRAY
  else
    let filteredPixels := pixels.filter validPixel
    if filteredPixels.length < 10 then NEUTRAL_GRAY
    else
      let nUnique := filteredPixels.dedup.length
      let actualClusters := min nClusters nUnique
      let result :=
        if actualClusters = 1 then filteredPixels.headD (0, 0, 0)
        else cluster actualClusters filteredPixels
      finalizeResult originalAvgSaturation result

/-- A stub for the abstracted KMeans call, used in concrete instances. -/
def stubCluster : Nat → List RGB → RGB := fun _ _ => (0, 0, 0)

/-- HSV round trip: converting an HSV triple with positive saturation and
value back to RGB and again to HSV recovers the triple exactly. -/
theorem colorsysHsvToRgb_roundTrip (h s v : ℚ) (hs0 : 0 < s) (hs1 : s ≤ 1)
    (hv : 0 < v) (hh0 : 0 ≤ h) (hh1 : h < 1) :
    colorsysRgbToHsv (colorsysHsvToRgb h s v).1 (colorsysHsvToRgb h s v).2.1
        (colorsysHsvToRgb h s v).2.2 = (h, s, v) := by
  have hsne : s ≠ 0 := ne_of_gt hs0
  simp only [colorsysHsvToRgb, if_neg hsne]
  set i0 : ℤ := ⌊h * 6⌋ with hi0
  set f : ℚ := h * 6 - (i0 : ℚ) with hfdef
  set p : ℚ := v * (1 - s) with hp
  set q : ℚ := v * (1 - s * f) with hq
  set t : ℚ := v * (1 - s * (1 - f)) with ht
  have hi0nn : 0 ≤ i0 := Int.floor_nonneg.mpr (by linarith)
  have hi0lt : i0 < 6 := by
    have : h * 6 < ((6 : ℤ) : ℚ) := by push_cast; linarith
    exact Int.floor_lt.mpr this
  have hmod : i0 % 6 = i0 := Int.emod_emod_of_dvd _ (dvd_refl 6) ▸ Int.emod_eq_of_lt hi0nn hi0lt
  have hf0 : 0 ≤ f := by
    have := Int.floor_le (h * 6)
    rw [hfdef]; linarith
  have hf1 : f < 1 := by
    have := Int.lt_floor_add_one (h * 6)
    rw [hfdef]; linarith
  have hh6 : h = ((i0 : ℚ) + f) / 6 := by rw [hfdef]; ring
  have hvs : 0 < v * s := by positivity
  have hvp : v - p = v * s := by rw [hp]; ring
  have hvt : v - t = v * s * (1 - f) := by rw [ht]; ring
  have hvq : v - q = v * s * f := by rw [hq]; ring
  have hpv : p < v := by nlinarith
  have hp0 : 0 ≤ p := by nlinarith
  have hpt : p ≤ t := by nlinarith
  have htv : t < v := by nlinarith
  have hpq : p < q := by nlinarith
  have hqv : q ≤ v := by nlinarith
  have hvpne : v - p ≠ 0 := by linarith
  have hbc : (v - p) / (v - p) = 1 := div_self hvpne
  have hgc : (v - t) / (v - p) = 1 - f := by
    rw [hvt, hvp, mul_comm (v * s) (1 - f), mul_div_assoc,
      div_self (ne_of_gt hvs), mul_one]
  have hqc : (v - q) / (v - p) = f := by
    rw [hvq, hvp, mul_comm (v * s) f, mul_div_assoc,
      div_self (ne_of_gt hvs), mul_one]
  have hsv : (v - p) / v = s := by
    rw [hvp, mul_comm v s, mul_div_assoc, div_self (ne_of_gt hv), mul_one]
  have hpvne : ¬ (p = v) := ne_of_lt hpv
  have hqvne : f ≠ 0 → ¬ (q = v) := by
    intro hf
    have hne : v - q ≠ 0 := by
      rw [hvq]
      exact mul_ne_zero (ne_of_gt hvs) hf
    intro hcon
    apply hne
    rw [hcon, sub_self]
  have hqveq : f = 0 → q = v := by
    intro hf
    rw [hq, hf]
    ring
  have htvne : ¬ (t = v) := ne_of_lt htv
  rw [hmod]
  have hcases : i0 = 0 ∨ i0 = 1 ∨ i0 = 2 ∨ i0 = 3 ∨ i0 = 4 ∨ i0 = 5 := by
    omega
  rcases hcases with h0 | h0 | h0 | h0 | h0 | h0 <;> rw [h0] <;> norm_num
  · -- i0 = 0: triple (v, t, p)
    simp only [colorsysRgbToHsv, max_eq_left hpt, max_eq_left htv.le,
      min_eq_right hpt, min_eq_right hpv.le, if_neg hpvne, eq_self_iff_true, if_true]
    simp only [Prod.mk.injEq]
    refine ⟨?_, hsv, trivial⟩
    rw [hbc, hgc, show (1 : ℚ) - (1 - f) = f from by ring]
    rw [Int.fract_eq_self.mpr ⟨by linarith, by linarith⟩]
    rw [hh6, h0]
    push_cast
    ring
  · -- i0 = 1: triple (q, v, p)
    rcases eq_or_ne f 0 with hf | hf
    · simp only [colorsysRgbToHsv, max_eq_left hpv.le, max_eq_right hqv,
        min_eq_right hpv.le, min_eq_right hpq.le, if_neg hpvne,
        if_pos (hqveq hf), eq_self_iff_true, if_true]
      simp only [Prod.mk.injEq]
      refine ⟨?_, hsv, trivial⟩
      rw [hbc, sub_self, zero_div, sub_zero]
      rw [Int.fract_eq_self.mpr ⟨by norm_num, by norm_num⟩]
      rw [hh6, h0, hf]
      push_cast
      ring
    · simp only [colorsysRgbToHsv, max_eq_left hpv.le, max_eq_right hqv,
        min_eq_right hpv.le, min_eq_right hpq.le, if_neg hpvne,
        if_neg (hqvne hf), eq_self_iff_true, if_true]
      simp only [Prod.mk.injEq]
      refine ⟨?_, hsv, trivial⟩
      rw [hbc, hqc, show (2 : ℚ) + f - 1 = 1 + f from by ring]
      rw [Int.fract_eq_self.mpr ⟨by linarith, by linarith⟩]
      rw [hh6, h0]
      push_cast
      ring
  · -- i0 = 2: triple (p, v, t)
    simp only [colorsysRgbToHsv, max_eq_left htv.le, max_eq_right hpv.le,
      min_eq_right htv.le, min_eq_left hpt, if_neg hpvne, if_neg hpvne,
      eq_self_iff_true, if_true]
    simp only [Prod.mk.injEq]
    refine ⟨?_, hsv, trivial⟩
    rw [hbc, hgc, show (2 : ℚ) + 1 - (1 - f) = 2 + f from by ring]
    rw [Int.fract_eq_self.mpr ⟨by linarith, by linarith⟩]
    rw [hh6, h0]
    push_cast
    ring
  · -- i0 = 3: triple (p, q, v)
    rcases eq_or_ne f 0 with hf | hf
    · simp only [colorsysRgbToHsv, max_eq_right hqv, max_eq_right hpv.le,
        min_eq_left hqv, min_eq_left hpq.le, if_neg hpvne, if_neg hpvne,
        if_pos (hqveq hf), eq_self_iff_true, if_true]
      simp only [Prod.mk.injEq]
      refine ⟨?_, hsv, trivial⟩
      rw [hbc, sub_self, zero_div, sub_zero]
      rw [Int.fract_eq_self.mpr ⟨by norm_num, by norm_num⟩]
      rw [hh6, h0, hf]
      push_cast
      ring
    · simp only [colorsysRgbToHsv, max_eq_right hqv, max_eq_right hpv.le,
        min_eq_left hqv, min_eq_left hpq.le, if_neg hpvne, if_neg hpvne,
        if_neg (hqvne hf)]
      simp only [Prod.mk.injEq]
      refine ⟨?_, hsv, trivial⟩
      rw [hbc, hqc, show (4 : ℚ) + f - 1 = 3 + f from by ring]
      rw [Int.fract_eq_self.mpr ⟨by linarith, by linarith⟩]
      rw [hh6, h0]
      push_cast
      ring
  · -- i0 = 4: triple (t, p, v)
    simp only [colorsysRgbToHsv, max_eq_right hpv.le, max_eq_right htv.le,
      min_eq_left hpv.le, min_eq_right hpt, if_neg hpvne, if_neg htvne,
      if_neg hpvne]
    simp only [Prod.mk.injEq]
    refine ⟨?_, hsv, trivial⟩
    rw [hbc, hgc, show (4 : ℚ) + 1 - (1 - f) = 4 + f from by ring]
    rw [Int.fract_eq_self.mpr ⟨by linarith, by linarith⟩]
    rw [hh6, h0]
    push_cast
    ring
  · -- i0 = 5: triple (v, p, q)
    simp only [colorsysRgbToHsv, max_eq_right hpq.le, max_eq_left hqv,
      min_eq_left hpq.le, min_eq_right hpv.le, if_neg hpvne, eq_self_iff_true, if_true]
    simp only [Prod.mk.injEq]
    refine ⟨?_, hsv, trivial⟩
    rw [hbc, hqc]
    have hfl : ⌊(f - 1) / 6⌋ = -1 := by
      rw [Int.floor_eq_iff]
      constructor <;> push_cast <;> linarith
    rw [Int.fract, hfl]
    rw [hh6, h0]
    push_cast
    ring

/-- The hue produced by colorsys rgb_to_hsv lies in the interval 0 to 1. -/
theorem colorsysRgbToHsv_hue_mem (r g b : ℚ) :
    0 ≤ (colorsysRgbToHsv r g b).1 ∧ (colorsysRgbToHsv r g b).1 < 1 := by
  simp only [colorsysRgbToHsv]
  split_ifs
  · norm_num
  all_goals exact ⟨Int.fract_nonneg _, Int.fract_lt_one _⟩

/-- The value produced by colorsys rgb_to_hsv is the largest channel. -/
theorem colorsysRgbToHsv_value (r g b : ℚ) :
    (colorsysRgbToHsv r g b).2.2 = max r (max g b) := by
  simp only [colorsysRgbToHsv]
  split_ifs <;> rfl

/-- Every channel produced by colorsys hsv_to_rgb lies between 0 and the
value v, and the largest channel is exactly v. -/
theorem colorsysHsvToRgb_bounds (h s v : ℚ) (hs0 : 0 < s) (hs1 : s ≤ 1)
    (hv0 : 0 ≤ v) (hh0 : 0 ≤ h) (hh1 : h < 1) :
    (0 ≤ (colorsysHsvToRgb h s v).1 ∧ (colorsysHsvToRgb h s v).1 ≤ v) ∧
    (0 ≤ (colorsysHsvToRgb h s v).2.1 ∧ (colorsysHsvToRgb h s v).2.1 ≤ v) ∧
    (0 ≤ (colorsysHsvToRgb h s v).2.2 ∧ (colorsysHsvToRgb h s v).2.2 ≤ v) ∧
    max (colorsysHsvToRgb h s v).1
      (max (colorsysHsvToRgb h s v).2.1 (colorsysHsvToRgb h s v).2.2) = v := by
  have hsne : s ≠ 0 := ne_of_gt hs0
  simp only [colorsysHsvToRgb, if_neg hsne]
  set i0 : ℤ := ⌊h * 6⌋ with hi0
  set f : ℚ := h * 6 - (i0 : ℚ) with hfdef
  set p : ℚ := v * (1 - s) with hp
  set q : ℚ := v * (1 - s * f) with hq
  set t : ℚ := v * (1 - s * (1 - f)) with ht
  have hi0nn : 0 ≤ i0 := Int.floor_nonneg.mpr (by linarith)
  have hi0lt : i0 < 6 := by
    have : h * 6 < ((6 : ℤ) : ℚ) := by push_cast; linarith
    exact Int.floor_lt.mpr this
  have hmod : i0 % 6 = i0 := Int.emod_eq_of_lt hi0nn hi0lt
  have hf0 : 0 ≤ f := by
    have := Int.floor_le (h * 6)
    rw [hfdef]; linarith
  have hf1 : f < 1 := by
    have := Int.lt_floor_add_one (h * 6)
    rw [hfdef]; linarith
  have hp0 : 0 ≤ p := by nlinarith
  have hpv : p ≤ v := by nlinarith
  have hq0 : 0 ≤ q := by nlinarith
  have hqv : q ≤ v := by nlinarith
  have ht0 : 0 ≤ t := by nlinarith
  have htv : t ≤ v := by nlinarith
  have hpq : p ≤ q := by nlinarith
  rw [hmod]
  rcases (by omega : i0 = 0 ∨ i0 = 1 ∨ i0 = 2 ∨ i0 = 3 ∨ i0 = 4 ∨ i0 = 5)
    with h0 | h0 | h0 | h0 | h0 | h0 <;> rw [h0]
  · rw [if_pos rfl]
    refine ⟨⟨hv0, le_refl v⟩, ⟨ht0, htv⟩, ⟨hp0, hpv⟩, ?_⟩
    show max v (max t p) = v
    rw [max_eq_left (max_le htv hpv)]
  · rw [if_neg (by decide), if_pos rfl]
    refine ⟨⟨hq0, hqv⟩, ⟨hv0, le_refl v⟩, ⟨hp0, hpv⟩, ?_⟩
    show max q (max v p) = v
    rw [max_eq_left hpv, max_eq_right hqv]
  · rw [if_neg (by decide), if_neg (by decide), if_pos rfl]
    refine ⟨⟨hp0, hpv⟩, ⟨hv0, le_refl v⟩, ⟨ht0, htv⟩, ?_⟩
    show max p (max v t) = v
    rw [max_eq_left htv, max_eq_right hpv]
  · rw [if_neg (by decide), if_neg (by decide), if_neg (by decide),
      if_pos rfl]
    refine ⟨⟨hp0, hpv⟩, ⟨hq0, hqv⟩, ⟨hv0, le_refl v⟩, ?_⟩
    show max p (max q v) = v
    rw [max_eq_right hqv, max_eq_right hpv]
  · rw [if_neg (by decide), if_neg (by decide), if_neg (by decide),
      if_neg (by decide), if_pos rfl]
    refine ⟨⟨ht0, htv⟩, ⟨hp0, hpv⟩, ⟨hv0, le_refl v⟩, ?_⟩
    show max t (max p v) = v
    rw [max_eq_right hpv, max_eq_right htv]
  · rw [if_neg (by decide), if_neg (by decide), if_neg (by decide),
      if_neg (by decide), if_neg (by decide)]
    refine ⟨⟨hv0, le_refl v⟩, ⟨hp0, hpv⟩, ⟨hq0, hqv⟩, ?_⟩
    show max v (max p q) = v
    rw [max_eq_right hpq, max_eq_left hqv]

/-- Python round() of an integer is that integer. -/
theorem pyRound_intCast (n : ℤ) : pyRound ((n : ℚ)) = n := by
  simp only [pyRound, Int.floor_intCast]
  norm_num

/-- Python round() never exceeds an integer upper bound of its argument. -/
theorem pyRound_le {q : ℚ} {n : ℤ} (h : q ≤ (n : ℚ)) : pyRound q ≤ n := by
  have hfl : ⌊q⌋ ≤ n := by
    have := Int.floor_le_floor h
    rwa [Int.floor_intCast] at this
  have hne : ⌊q⌋ = n → q - (⌊q⌋ : ℚ) < 1 / 2 := by
    intro heq
    have h1 : q ≤ ((⌊q⌋ : ℤ) : ℚ) := by rw [heq]; exact h
    linarith
  simp only [pyRound]
  split_ifs with h1 h2 h3
  · exact hfl
  · rcases lt_or_eq_of_le hfl with hlt | heq
    · omega
    · exact absurd (hne heq) (by linarith)
  · exact hfl
  · rcases lt_or_eq_of_le hfl with hlt | heq
    · omega
    · exact absurd (hne heq) h1

/-- The boost to saturation 23 preserves the 8-bit value (largest channel)
of the color exactly, 8-bit rounding included. -/
theorem boost_maxChannel (c : RGB) :
    maxChannel (boostSaturation c 23) = maxChannel c := by
  have h255 : (0 : ℚ) ≤ 255 := by norm_num
  simp only [boostSaturation, toNatRound, maxChannel]
  set hsv := colorsysRgbToHsv ((c.1 : ℚ) / 255) ((c.2.1 : ℚ) / 255)
    ((c.2.2 : ℚ) / 255) with hhsv
  have hhue := colorsysRgbToHsv_hue_mem ((c.1 : ℚ) / 255) ((c.2.1 : ℚ) / 255)
    ((c.2.2 : ℚ) / 255)
  have hval := colorsysRgbToHsv_value ((c.1 : ℚ) / 255) ((c.2.1 : ℚ) / 255)
    ((c.2.2 : ℚ) / 255)
  rw [← hhsv] at hhue hval
  have hM : hsv.2.2 * 255 = ((max c.1 (max c.2.1 c.2.2) : ℕ) : ℚ) := by
    rw [hval]
    push_cast
    rw [max_div_div_right h255, max_div_div_right h255,
      div_mul_cancel₀ _ (by norm_num : (255 : ℚ) ≠ 0)]
  have hv0 : 0 ≤ hsv.2.2 := by
    rw [hval]
    positivity
  have hb := colorsysHsvToRgb_bounds hsv.1 (23 / 255) hsv.2.2 (by norm_num)
    (by norm_num) hv0 hhue.1 hhue.2
  set X := colorsysHsvToRgb hsv.1 (23 / 255) hsv.2.2 with hX
  obtain ⟨⟨hx0, hxv⟩, ⟨hy0, hyv⟩, ⟨hz0, hzv⟩, hmax⟩ := hb
  have hle : ∀ w : ℚ, w ≤ hsv.2.2 →
      (pyRound (w * 255)).toNat ≤ max c.1 (max c.2.1 c.2.2) := by
    intro w hw
    have h1 : w * 255 ≤ (((max c.1 (max c.2.1 c.2.2) : ℕ) : ℤ) : ℚ) := by
      have h2 := mul_le_mul_of_nonneg_right hw h255
      rw [hM] at h2
      push_cast at h2 ⊢
      linarith
    exact Int.toNat_le.mpr (pyRound_le h1)
  have heq : (pyRound (hsv.2.2 * 255)).toNat = max c.1 (max c.2.1 c.2.2) := by
    have : hsv.2.2 * 255 = (((max c.1 (max c.2.1 c.2.2) : ℕ) : ℤ) : ℚ) := by
      rw [hM]
      push_cast
      ring
    rw [this, pyRound_intCast, Int.toNat_natCast]
  rcases max_choice X.1 (max X.2.1 X.2.2) with hc1 | hc1
  · have hx : X.1 = hsv.2.2 := by rw [← hmax, hc1]
    rw [hx, heq, max_eq_left (max_le (hle _ hyv) (hle _ hzv))]
  · rcases max_choice X.2.1 X.2.2 with hc2 | hc2
    · have hy : X.2.1 = hsv.2.2 := by rw [← hmax, hc1, hc2]
      rw [hy, heq, max_eq_left (hle _ hzv), max_eq_right (hle _ hxv)]
    · have hz : X.2.2 = hsv.2.2 := by rw [← hmax, hc1, hc2]
      rw [hz, heq, max_eq_right (hle _ hyv), max_eq_right (hle _ hxv)]

/-- Claim C6: in get_dominant_color, when the clustering candidate has
saturation below 20 and the original unfiltered mean saturation was at
least 30, the result is the candidate with its saturation set to 23 (so at
least 23) by an HSV round-trip that preserves hue and value (value exactly,
8-bit rounding included; hue and saturation exactly at the rational color
produced before the 8-bit rounding); when either condition fails, and in
particular whenever the mean saturation lies in the band 15 to 30, the
candidate is returned unmodified. -/
theorem claim_C6 (avg : ℚ) (c : RGB) :
    (¬(colorSaturation c < 20 ∧ 30 ≤ avg) → finalizeResult avg c = c) ∧
    (avg < 30 → finalizeResult avg c = c) ∧
    (colorSaturation c < 20 → 30 ≤ avg →
      finalizeResult avg c = boostSaturation c 23 ∧
      maxChannel (boostSaturation c 23) = maxChannel c ∧
      (0 < maxChannel c →
        colorsysRgbToHsv (boostPre c).1 (boostPre c).2.1 (boostPre c).2.2 =
          ((colorsysRgbToHsv ((c.1 : ℚ) / 255) ((c.2.1 : ℚ) / 255)
              ((c.2.2 : ℚ) / 255)).1,
           23 / 255,
           (colorsysRgbToHsv ((c.1 : ℚ) / 255) ((c.2.1 : ℚ) / 255)
              ((c.2.2 : ℚ) / 255)).2.2))) := by
  have h255 : (0 : ℚ) ≤ 255 := by norm_num
  refine ⟨?_, ?_, ?_⟩
  · intro h
    simp only [finalizeResult, if_neg h]
  · intro h
    simp only [finalizeResult]
    rw [if_neg]
    rintro ⟨h1, h2⟩
    linarith
  · intro h1 h2
    refine ⟨by simp only [finalizeResult, if_pos (And.intro h1 h2)],
      boost_maxChannel c, ?_⟩
    intro hMpos
    simp only [boostPre]
    set hsv := colorsysRgbToHsv ((c.1 : ℚ) / 255) ((c.2.1 : ℚ) / 255)
      ((c.2.2 : ℚ) / 255) with hhsv
    have hhue := colorsysRgbToHsv_hue_mem ((c.1 : ℚ) / 255)
      ((c.2.1 : ℚ) / 255) ((c.2.2 : ℚ) / 255)
    have hval := colorsysRgbToHsv_value ((c.1 : ℚ) / 255)
      ((c.2.1 : ℚ) / 255) ((c.2.2 : ℚ) / 255)
    rw [← hhsv] at hhue hval
    have hv : 0 < hsv.2.2 := by
      rw [hval]
      have hMq : max ((c.1 : ℚ) / 255) (max ((c.2.1 : ℚ) / 255)
          ((c.2.2 : ℚ) / 255)) = ((maxChannel c : ℕ) : ℚ) / 255 := by
        simp only [maxChannel]
        push_cast
        rw [max_div_div_right h255, max_div_div_right h255]
      rw [hMq]
      have : (0 : ℚ) < ((maxChannel c : ℕ) : ℚ) := by exact_mod_cast hMpos
      positivity
    exact colorsysHsvToRgb_roundTrip hsv.1 (23 / 255) hsv.2.2 (by norm_num)
      (by norm_num) hv hhue.1 hhue.2

/-- Witness for claim C6 at the gray candidate (100, 100, 100), whose
saturation 0 is below 20, with mean saturation exactly 30. -/
theorem claim_C6_witness :
    finalizeResult 30 (100, 100, 100) = boostSaturation (100, 100, 100) 23 :=
  ((claim_C6 30 (100, 100, 100)).2.2
    (by norm_num [colorSaturation, colorsysRgbToHsv]) (le_refl 30)).1

end ColorAnalyzer

/-- Claim C5: get_dominant_color returns the fixed neutral gray
(128, 128, 128) when the mean saturation of the unfiltered pixel set is
below 15 (the result does not depend on the clustering function, which is
never invoked), and also when fewer than 10 pixels survive the
near-black / near-white / near-gray filter; in particular every uniform
mid-gray image yields (128, 128, 128). -/
theorem claim_C5 (nClusters : Nat)
    (cluster : Nat → List ColorAnalyzer.RGB → ColorAnalyzer.RGB)
    (pixels : List ColorAnalyzer.RGB) :
    (ColorAnalyzer.averageSaturation (pixels.map ColorAnalyzer.rgbToHsvNp) <
        15 →
      ColorAnalyzer.get_dominant_color nClusters cluster pixels =
        (128, 128, 128)) ∧
    ((pixels.filter ColorAnalyzer.validPixel).length < 10 →
      ColorAnalyzer.get_dominant_color nClusters cluster pixels =
        (128, 128, 128)) ∧
    ((∀ p ∈ pixels, p = (128, 128, 128)) →
      ColorAnalyzer.get_dominant_color nClusters cluster pixels =
        (128, 128, 128)) := by
  have hlow : ColorAnalyzer.averageSaturation
      (pixels.map ColorAnalyzer.rgbToHsvNp) < 15 →
      ColorAnalyzer.get_dominant_color nClusters cluster pixels =
        (128, 128, 128) := by
    intro h
    simp only [ColorAnalyzer.get_dominant_color, if_pos h]
    rfl
  refine ⟨hlow, ?_, ?_⟩
  · intro hfew
    by_cases h : ColorAnalyzer.averageSaturation
        (pixels.map ColorAnalyzer.rgbToHsvNp) < 15
    · exact hlow h
    · simp only [ColorAnalyzer.get_dominant_color, if_neg h, if_pos hfew]
      rfl
  · intro hgray
    apply hlow
    rcases eq_or_ne pixels [] with h | h
    · subst h
      simp [ColorAnalyzer.averageSaturation]
    · have hsum : ((pixels.map ColorAnalyzer.rgbToHsvNp).map
          (fun t => t.2.1)).sum = 0 := by
        apply List.sum_eq_zero
        intro x hx
        simp only [List.map_map, List.mem_map, Function.comp] at hx
        obtain ⟨p, hp, rfl⟩ := hx
        rw [hgray p hp]
        norm_num [ColorAnalyzer.rgbToHsvNp]
      have hne : pixels.map ColorAnalyzer.rgbToHsvNp ≠ [] := by
        simpa using h
      simp only [ColorAnalyzer.averageSaturation, if_neg hne, hsum]
      norm_num

/-- Witness for claim C5 at a uniform mid-gray 12-pixel image. -/
theorem claim_C5_witness :
    ColorAnalyzer.get_dominant_color 5 ColorAnalyzer.stubCluster
      (List.replicate 12 ((128, 128, 128) : ColorAnalyzer.RGB)) =
      (128, 128, 128) :=
  (claim_C5 5 ColorAnalyzer.stubCluster
      (List.replicate 12 (128, 128, 128))).2.2
    (by intro p hp; exact List.eq_of_mem_replicate hp)

/-! ## SkinDetector (skin_detector.py)

Images are numpy pixel arrays: grayscale, RGB or RGBA pixel lists.  The
8-bit cv2.cvtColor RGB2HSV conversion is modelled at rational precision
with half-up rounding (the fixed-point tables of OpenCV agree with the
exact value on the integer-valued pixels used by the concrete instances of
this file); get_skin_percentage uses the unfeathered mask, so the Gaussian
feathering path of detect_skin_mask is never taken here. -/

namespace SkinDetector

/-- A numpy image as consumed by the skin detector: a grayscale array of
shape (h, w), or an RGB / RGBA pixel list. -/
inductive NpImage where
  | gray : List Nat → NpImage
  | rgb : List (Nat × Nat × Nat) → NpImage
  | rgba : List (Nat × Nat × Nat × Nat) → NpImage
  deriving Repr, DecidableEq

/-- numpy .size: the element count (zero exactly when there are no
pixels). -/
def size : NpImage → Nat
  | .gray l => l.length
  | .rgb l => 3 * l.length
  | .rgba l => 4 * l.length

/-- Half-up rounding, modelling the fixed-point cv2 8-bit conversions. -/
def qRound (q : ℚ) : ℤ := ⌊q + 1 / 2⌋

/-- cv2.cvtColor RGB2HSV for one 8-bit pixel: V is the largest channel,
S is 255 (max - min) / max rounded (0 when max is 0), H is the hue angle
halved into 0..180 and rounded, negative hues wrapped by adding 180. -/
def cv2RgbToHsv (p : Nat × Nat × Nat) : Nat × Nat × Nat :=
  let r := p.1
  let g := p.2.1
  let b := p.2.2
  let maxc := max r (max g b)
  let minc := min r (min g b)
  let v := maxc
  let diff := maxc - minc
  let s : ℤ := if maxc = 0 then 0 else qRound ((255 * (diff : ℚ)) / (maxc : ℚ))
  let hraw : ℚ :=
    if diff = 0 then 0
    else if maxc = r then 30 * ((g : ℚ) - (b : ℚ)) / (diff : ℚ)
    else if maxc = g then 60 + 30 * ((b : ℚ) - (r : ℚ)) / (diff : ℚ)
    else 120 + 30 * ((r : ℚ) - (g : ℚ)) / (diff : ℚ)
  let h : ℤ := qRound hraw
  let h2 := if h < 0 then h + 180 else h
  (h2.toNat, s.toNat, v)

/-- SkinDetector.SKIN_RANGES: the five HSV boxes (light, medium, dark,
olive, reddish), each given as ((hMin, hMax), (sMin, sMax), (vMin, vMax)). -/
def SKIN_RANGES : List ((Nat × Nat) × (Nat × Nat) × (Nat × Nat)) :=
  [((0, 25), (20, 90), (180, 255)),
   ((0, 25), (30, 100), (120, 220)),
   ((0, 30), (30, 100), (50, 160)),
   ((15, 35), (25, 90), (100, 200)),
   ((0, 15), (40, 100), (100, 230))]

/-- The unfeathered mask value of a pixel in detect_skin_mask: the
pixelwise maximum of the five cv2.inRange tests (inclusive bounds), i.e.
255 when some skin range contains the HSV triple and 0 otherwise. -/
def skinMaskVal (p : Nat × Nat × Nat) : Nat :=
  let hsv := cv2RgbToHsv p
  if SKIN_RANGES.any (fun rng =>
      decide (rng.1.1 ≤ hsv.1) && decide (hsv.1 ≤ rng.1.2) &&
      decide (rng.2.1.1 ≤ hsv.2.1) && decide (hsv.2.1 ≤ rng.2.1.2) &&
      decide (rng.2.2.1 ≤ hsv.2.2) && decide (hsv.2.2 ≤ rng.2.2.2)) then 255
  else 0

/-- Embedding of SkinDetector.get_skin_percentage: the fraction of skin
pixels (unfeathered mask value over 127) among visible pixels.  With an
alpha channel only pixels with alpha over 127 are visible and the fraction
is taken over those (0 when none is visible); without one every pixel
counts.  A grayscale image has an all-zero mask, so its percentage is 0,
as is that of an empty image. -/
def get_skin_percentage (img : NpImage) : ℚ :=
  if size img = 0 then 0
  else
    match img with
    | .gray _ => 0
    | .rgb l =>
        ((l.countP (fun p => decide (127 < skinMaskVal p)) : ℚ)) /
          ((l.length : ℚ))
    | .rgba l =>
        let totalVisible := l.countP (fun p => decide (127 < p.2.2.2))
        if totalVisible = 0 then 0
        else
          ((l.countP (fun p =>
              decide (127 < skinMaskVal (p.1, p.2.1, p.2.2.1)) &&
              decide (127 < p.2.2.2)) : ℚ)) / ((totalVisible : ℚ))

/-- The default threshold 0.05 of the is_photo_layer signature. -/
def DEFAULT_PHOTO_THRESHOLD : ℚ := 1 / 20

/-- Embedding of SkinDetector.is_photo_layer with an explicit threshold:
false on an empty image, otherwise the comparison skin percentage at least
threshold. -/
def is_photo_layer (img : NpImage) (threshold : ℚ) : Bool :=
  if size img = 0 then false
  else decide (threshold ≤ get_skin_percentage img)

/-- SkinDetector.is_photo_layer called without a threshold argument, which
Python fills with the default 0.05. -/
def is_photo_layer_default (img : NpImage) : Bool :=
  is_photo_layer img DEFAULT_PHOTO_THRESHOLD

/-- Concrete 25-pixel RGB image: one skin-tone pixel (255, 220, 185),
whose OpenCV HSV is (15, 70, 255), inside 24 pure-blue pixels; its skin
percentage is 1/25 = 4 percent. -/
def img25 : NpImage :=
  .rgb ((255, 220, 185) :: List.replicate 24 (0, 0, 255))

end SkinDetector

/-! ## PSDProcessor: photo-layer classification (psd_processor.py) -/

namespace PSDProcessor

/-- PSDProcessor.PHOTO_KEYWORDS. -/
def PHOTO_KEYWORDS : List String :=
  ["фото", "photo", "портрет", "лицо", "face", "avatar", "person",
   "человек"]

/-- Python str.lower modelled at the character level for the ASCII and
Cyrillic alphabets, the two alphabets of PHOTO_KEYWORDS: A-Z and the
Cyrillic А-Я (with Ё) are shifted to their lowercase forms, everything
else is unchanged.  No character outside these ranges is lowercased by
Python into the ASCII or Cyrillic letters of the keyword list, so the
keyword substring test below agrees with the source on every name. -/
def lowerChar (c : Char) : Char :=
  if 'A' ≤ c ∧ c ≤ 'Z' then Char.ofNat (c.toNat + 32)
  else if 'А' ≤ c ∧ c ≤ 'Я' then Char.ofNat (c.toNat + 32)
  else if c = 'Ё' then 'ё'
  else c

/-- Embedding of PSDProcessor._is_photo_layer_by_name: an empty name is
never a photo, otherwise the lowercased name is tested for each keyword
(Cyrillic and ASCII alike) as a substring. -/
def is_photo_layer_by_name (name : String) : Bool :=
  if name = "" then false
  else PHOTO_KEYWORDS.any (fun kw =>
    decide (List.IsInfix kw.toList (name.toList.map lowerChar)))

/-- A PSD layer as consumed by _is_photo_layer and _get_layer_coverage:
its name and its bounding box. -/
structure PsdLayer where
  name : String
  left : Int
  top : Int
  right : Int
  bottom : Int
  deriving Repr, DecidableEq

/-- Embedding of PSDProcessor._get_layer_coverage: the fraction of the
canvas area covered by the layer bounding box; 0 for a degenerate box or a
degenerate canvas. -/
def get_layer_coverage (layer : PsdLayer) (canvasWidth canvasHeight : Nat) :
    ℚ :=
  let layerWidth := layer.right - layer.left
  let layerHeight := layer.bottom - layer.top
  if layerWidth ≤ 0 ∨ layerHeight ≤ 0 then 0
  else
    let layerArea : ℚ := (layerWidth : ℚ) * (layerHeight : ℚ)
    let canvasArea : ℚ := (canvasWidth : ℚ) * (canvasHeight : ℚ)
    if 0 < canvasArea then layerArea / canvasArea else 0

/-- PSDProcessor.SKIN_THRESHOLD = 0.035. -/
def SKIN_THRESHOLD : ℚ := 7 / 200

/-- Embedding of PSDProcessor._is_photo_layer: the name-keyword test comes
first and wins outright; only then, for a nonempty layer image, with both
canvas dimensions truthy (nonzero) a coverage above 80 percent forces
false, and otherwise the skin-content test at SKIN_THRESHOLD decides; no
image means not a photo. -/
def is_photo_layer_psd (layer : PsdLayer)
    (layerImage : Option SkinDetector.NpImage)
    (canvasWidth canvasHeight : Nat) : Bool :=
  if is_photo_layer_by_name layer.name then true
  else
    match layerImage with
    | some img =>
        if SkinDetector.size img ≠ 0 then
          if canvasWidth ≠ 0 ∧ canvasHeight ≠ 0 then
            if get_layer_coverage layer canvasWidth canvasHeight > 4 / 5 then
              false
            else SkinDetector.is_photo_layer img SKIN_THRESHOLD
          else SkinDetector.is_photo_layer img SKIN_THRESHOLD
        else false
    | none => false

/-- A full-canvas layer named photo, for the C9 instances. -/
def bigPhotoLayer : PsdLayer :=
  { name := "photo", left := 0, top := 0, right := 100, bottom := 100 }

/-- A full-canvas layer with the capitalized Cyrillic name Фото, whose
lowercase form matches the Cyrillic keyword фото. -/
def bigFotoLayer : PsdLayer :=
  { name := "Фото", left := 0, top := 0, right := 100, bottom := 100 }

/-- A layer named face, for witnesses. -/
def faceLayer : PsdLayer :=
  { name := "face", left := 0, top := 0, right := 10, bottom := 10 }

/-- A one-pixel pure-blue image (not skin). -/
def blueImg : SkinDetector.NpImage := .rgb [(0, 0, 255)]

end PSDProcessor

/-- A three-pixel RGBA image: a visible skin pixel, a visible blue pixel
and a fully transparent blue pixel; its skin percentage is 1/2 over the
two visible pixels. -/
def imgRgba : SkinDetector.NpImage :=
  .rgba [(255, 220, 185, 255), (0, 0, 255, 255), (0, 0, 255, 0)]

/-- The unfeathered mask marks the concrete skin-tone pixel. -/
theorem skinMaskVal_skin : SkinDetector.skinMaskVal (255, 220, 185) = 255 := by
  norm_num [SkinDetector.skinMaskVal, SkinDetector.cv2RgbToHsv,
    SkinDetector.qRound, SkinDetector.SKIN_RANGES]

/-- The unfeathered mask rejects pure blue. -/
theorem skinMaskVal_blue : SkinDetector.skinMaskVal (0, 0, 255) = 0 := by
  norm_num [SkinDetector.skinMaskVal, SkinDetector.cv2RgbToHsv,
    SkinDetector.qRound, SkinDetector.SKIN_RANGES]

/-- Counterexample to claim C7 as stated: on a 25-pixel image whose skin
percentage is 1/25 = 4 percent, which is at least the claimed default
threshold 0.035, is_photo_layer called without a threshold returns false:
the Python default of the signature is 0.05, not 0.035. -/
theorem claim_C7_counterexample :
    SkinDetector.is_photo_layer_default SkinDetector.img25 = false ∧
    SkinDetector.get_skin_percentage SkinDetector.img25 = 1 / 25 ∧
    (7 / 200 : ℚ) ≤ 1 / 25 := by
  have hpct : SkinDetector.get_skin_percentage SkinDetector.img25 = 1 / 25 := by
    simp only [SkinDetector.img25, SkinDetector.get_skin_percentage,
      SkinDetector.size, List.length_cons, List.length_replicate]
    norm_num [List.replicate, List.countP_cons, skinMaskVal_skin,
      skinMaskVal_blue]
  refine ⟨?_, hpct, by norm_num⟩
  simp only [SkinDetector.is_photo_layer_default, SkinDetector.is_photo_layer,
    SkinDetector.DEFAULT_PHOTO_THRESHOLD, hpct]
  norm_num [SkinDetector.img25, SkinDetector.size]

/-- Claim C7, amended: is_photo_layer returns true exactly when the image
is nonempty and its skin percentage is at least the given threshold; the
default threshold when the caller supplies none is 5 percent (0.05), not
3.5 percent (0.035, which is the separate PSDProcessor.SKIN_THRESHOLD the
processor always passes explicitly); the percentage is computed over
visible pixels only (alpha over 127 when an alpha channel is present),
counting a pixel as skin when its unfeathered mask value exceeds 127, and
always lies between 0 and 1. -/
theorem claim_C7_amended (img : SkinDetector.NpImage) (t : ℚ) :
    (SkinDetector.is_photo_layer img t = true ↔
      (SkinDetector.size img ≠ 0 ∧
        t ≤ SkinDetector.get_skin_percentage img)) ∧
    (SkinDetector.is_photo_layer_default img =
      SkinDetector.is_photo_layer img (1 / 20)) ∧
    (0 ≤ SkinDetector.get_skin_percentage img) ∧
    (SkinDetector.get_skin_percentage img ≤ 1) ∧
    (∀ l, img = SkinDetector.NpImage.rgba l →
      l.countP (fun p => decide (127 < p.2.2.2)) ≠ 0 →
      SkinDetector.get_skin_percentage img =
        ((l.countP (fun p =>
            decide (127 < SkinDetector.skinMaskVal (p.1, p.2.1, p.2.2.1)) &&
            decide (127 < p.2.2.2)) : ℚ)) /
          ((l.countP (fun p => decide (127 < p.2.2.2)) : ℚ))) := by
  refine ⟨?_, rfl, ?_, ?_, ?_⟩
  · simp only [SkinDetector.is_photo_layer]
    by_cases h : SkinDetector.size img = 0
    · simp [h]
    · simp [h]
  · rcases img with l | l | l <;>
      simp only [SkinDetector.get_skin_percentage] <;>
      split_ifs <;> positivity
  · rcases img with l | l | l
    · simp only [SkinDetector.get_skin_percentage]
      split_ifs <;> norm_num
    · simp only [SkinDetector.get_skin_percentage, SkinDetector.size]
      split_ifs with h
      · norm_num
      · have hlen : 0 < l.length := by omega
        rw [div_le_one (by exact_mod_cast hlen)]
        exact_mod_cast l.countP_le_length _
    · simp only [SkinDetector.get_skin_percentage, SkinDetector.size]
      split_ifs with h1 h2
      · norm_num
      · norm_num
      · have hvis : 0 < l.countP (fun p => decide (127 < p.2.2.2)) :=
          Nat.pos_of_ne_zero h2
        rw [div_le_one (by exact_mod_cast hvis)]
        have hm : l.countP (fun p =>
              decide (127 < SkinDetector.skinMaskVal (p.1, p.2.1, p.2.2.1)) &&
              decide (127 < p.2.2.2)) ≤
            l.countP (fun p => decide (127 < p.2.2.2)) := by
          apply List.countP_mono_left
          intro a _ ha
          exact (Bool.and_eq_true_iff.mp ha).2
        exact_mod_cast hm
  · intro l himg hvis
    subst himg
    have hlen : l.length ≠ 0 := by
      have := l.countP_le_length (fun p => decide (127 < p.2.2.2))
      omega
    simp only [SkinDetector.get_skin_percentage, SkinDetector.size]
    rw [if_neg (by omega), if_neg hvis]

/-- Witness for claim C7 (amended) at the RGBA image with one transparent
pixel: the percentage is taken over the two visible pixels only. -/
theorem claim_C7_witness :
    SkinDetector.get_skin_percentage imgRgba = 1 / 2 := by
  have h := (claim_C7_amended imgRgba 0).2.2.2.2
      [(255, 220, 185, 255), (0, 0, 255, 255), (0, 0, 255, 0)] rfl
      (by norm_num [List.countP_cons])
  rw [h]
  norm_num [List.countP_cons, skinMaskVal_skin, skinMaskVal_blue]

/-- Counterexample to claim C9 as stated: a layer whose name matches the
photo keyword list is classified as photo even though it covers the whole
canvas (coverage 1, above 80 percent), because the name test precedes the
coverage test. -/
theorem claim_C9_counterexample :
    PSDProcessor.is_photo_layer_psd PSDProcessor.bigPhotoLayer
      (some PSDProcessor.blueImg) 100 100 = true ∧
    PSDProcessor.get_layer_coverage PSDProcessor.bigPhotoLayer 100 100 = 1 ∧
    ¬ ((1 : ℚ) ≤ 4 / 5) := by
  refine ⟨?_, ?_, by norm_num⟩
  · simp only [PSDProcessor.is_photo_layer_psd]
    rw [if_pos (by decide)]
  · norm_num [PSDProcessor.get_layer_coverage, PSDProcessor.bigPhotoLayer]

/-- Claim C9, amended: a successfully rendered layer is classified photo
when its name matches a photo keyword, regardless of canvas coverage (the
capitalized Cyrillic name Фото matches the Cyrillic keyword фото through
lowercasing, exactly as in the source, and a full-canvas layer so named is
classified photo); only the skin-percentage route is gated by coverage:
for a non-matching name with a nonempty layer image and nonzero canvas
dimensions, coverage above 80 percent forces the classification to false
and coverage at most 80 percent defers to the skin test at threshold
0.035; without a layer image the classification is the name test alone. -/
theorem claim_C9_amended (layer : PSDProcessor.PsdLayer)
    (img : Option SkinDetector.NpImage) (cw ch : Nat) :
    (PSDProcessor.is_photo_layer_by_name layer.name = true →
      PSDProcessor.is_photo_layer_psd layer img cw ch = true) ∧
    (PSDProcessor.is_photo_layer_by_name layer.name = false →
      ∀ i, img = some i → SkinDetector.size i ≠ 0 → cw ≠ 0 → ch ≠ 0 →
        ((4 / 5 < PSDProcessor.get_layer_coverage layer cw ch →
          PSDProcessor.is_photo_layer_psd layer img cw ch = false) ∧
         (¬ (4 / 5 < PSDProcessor.get_layer_coverage layer cw ch) →
          PSDProcessor.is_photo_layer_psd layer img cw ch =
            SkinDetector.is_photo_layer i PSDProcessor.SKIN_THRESHOLD))) ∧
    (img = none →
      PSDProcessor.is_photo_layer_psd layer img cw ch =
        PSDProcessor.is_photo_layer_by_name layer.name) ∧
    (PSDProcessor.is_photo_layer_by_name "Фото" = true) ∧
    (PSDProcessor.is_photo_layer_psd PSDProcessor.bigFotoLayer
      (some PSDProcessor.blueImg) 100 100 = true) := by
  refine ⟨?_, ?_, ?_, by decide, by
    simp only [PSDProcessor.is_photo_layer_psd]
    rw [if_pos (by decide)]⟩
  · intro h
    simp only [PSDProcessor.is_photo_layer_psd, if_pos h]
  · intro hname i hi hsize hcw hch
    subst hi
    simp only [PSDProcessor.is_photo_layer_psd, hname, Bool.false_eq_true,
      if_false]
    rw [if_pos hsize, if_pos ⟨hcw, hch⟩]
    constructor
    · intro hcov
      rw [if_pos hcov]
    · intro hcov
      rw [if_neg hcov]
  · intro h
    subst h
    simp only [PSDProcessor.is_photo_layer_psd]
    by_cases hname : PSDProcessor.is_photo_layer_by_name layer.name
    · simp [hname]
    · simp [hname]

/-- Witness for claim C9 (amended): a layer named face with no rendered
image is classified photo purely by name. -/
theorem claim_C9_witness :
    PSDProcessor.is_photo_layer_psd PSDProcessor.faceLayer none 50 50 =
      true :=
  (claim_C9_amended PSDProcessor.faceLayer none 50 50).1 (by decide)

/-! ## Concrete point lists used by the PointValidator claims -/

/-- The rectangle [(0,0),(10,0),(10,10),(0,10)] from the spec. -/
def rectPoints : List Point := [(0, 0), (10, 0), (10, 10), (0, 10)]

/-- The bowtie [(0,0),(0,10),(10,0),(10,10)] from the spec. -/
def bowtiePoints : List Point := [(0, 0), (0, 10), (10, 0), (10, 10)]

/-- Claim C1: the render mode is composite_fallback when there are zero
visible layers or zero successful layers; layer_by_layer when the success
ratio (successes over all visible non-product layers) is at least one half,
including the all-success case; hybrid when the ratio is below one half with
at least one success.  A 40 percent success set selects hybrid and a 60
percent one selects layer_by_layer. -/
theorem claim_C1 (b a f : List PSDProcessor.LayerRenderResult) :
    (b.length + a.length + f.length = 0 →
        PSDProcessor.determine_render_mode b a f = "composite_fallback") ∧
    (b.length + a.length = 0 →
        PSDProcessor.determine_render_mode b a f = "composite_fallback") ∧
    (0 < b.length + a.length →
        (1 : ℚ) / 2 ≤
          (b.length + a.length : ℚ) / (b.length + a.length + f.length : ℚ) →
        PSDProcessor.determine_render_mode b a f = "layer_by_layer") ∧
    (0 < b.length + a.length →
        (b.length + a.length : ℚ) / (b.length + a.length + f.length : ℚ) <
          1 / 2 →
        PSDProcessor.determine_render_mode b a f = "hybrid") ∧
    PSDProcessor.determine_render_mode
        (List.replicate 2 PSDProcessor.okLayer) []
        (List.replicate 3 PSDProcessor.badLayer) = "hybrid" ∧
    PSDProcessor.determine_render_mode
        (List.replicate 3 PSDProcessor.okLayer) []
        (List.replicate 2 PSDProcessor.badLayer) = "layer_by_layer" := by
  refine ⟨?_, ?_, ?_, ?_, by norm_num [PSDProcessor.determine_render_mode,
      PSDProcessor.renderThreshold], by norm_num [PSDProcessor.determine_render_mode,
      PSDProcessor.renderThreshold]⟩
  · intro h
    simp only [PSDProcessor.determine_render_mode]
    rw [if_pos h]
  · intro h
    simp only [PSDProcessor.determine_render_mode]
    by_cases h1 : b.length + a.length + f.length = 0
    · rw [if_pos h1]
    · rw [if_neg h1, if_pos h]
  · intro hpos hratio
    simp only [PSDProcessor.determine_render_mode, PSDProcessor.renderThreshold]
    split_ifs with h1 h2 h3 h4
    · omega
    · omega
    · rfl
    · rfl
    · exfalso
      apply h4
      push_cast at hratio ⊢
      linarith
  · intro hpos hratio
    have hx : (0 : ℚ) < (b.length : ℚ) + (a.length : ℚ) := by exact_mod_cast hpos
    simp only [PSDProcessor.determine_render_mode, PSDProcessor.renderThreshold]
    split_ifs with h1 h2 h3 h4
    · omega
    · omega
    · exfalso
      rw [h3] at hratio
      norm_num at hratio
      rw [div_self (ne_of_gt hx)] at hratio
      linarith
    · exfalso
      push_cast at h4
      linarith
    · rfl

/-- Witness for claim C1 at a concrete 40 percent success layer set. -/
theorem claim_C1_witness :
    PSDProcessor.determine_render_mode (List.replicate 2 PSDProcessor.okLayer)
      [] (List.replicate 3 PSDProcessor.badLayer) = "hybrid" :=
  (claim_C1 (List.replicate 2 PSDProcessor.okLayer) []
      (List.replicate 3 PSDProcessor.badLayer)).2.2.2.1 (by simp)
    (by norm_num)

/-- Counterexample to claim C4 as stated: for the ordinary rectangle the two
diagonals (points 0 to 2 and points 1 to 3) do cross according to the very
segment-intersection primitive of the source, yet validate_points accepts
the rectangle, so validation does not raise exactly when the diagonals
cross. -/
theorem claim_C4_counterexample :
    PointValidator.claim_diagonals_cross rectPoints = true ∧
    PointValidator.validate_points rectPoints 100 100 = Except.ok () := by
  constructor <;> rfl

/-- Claim C4, amended: validate_points raises ValidationError exactly when
the list does not have 4 points or a pair of opposite boundary edges of the
quadrilateral (edge p0p1 against edge p2p3, or edge p1p2 against edge p3p0)
crosses; it performs no coordinate-bounds check (the result is independent
of the image dimensions and points may lie outside the image); the bowtie
fails and the rectangle succeeds. -/
theorem claim_C4_amended (a b c d : Point) (pts : List Point)
    (w h w2 h2 : Nat) :
    (PointValidator.validate_points [a, b, c, d] w h = Except.ok () ↔
      (PointValidator.segments_intersect a b c d = false ∧
       PointValidator.segments_intersect b c d a = false)) ∧
    (pts.length ≠ 4 →
      PointValidator.validate_points pts w h =
        Except.error "Expected 4 corner points") ∧
    (PointValidator.validate_points pts w h =
      PointValidator.validate_points pts w2 h2) ∧
    (PointValidator.validate_points bowtiePoints w h =
      Except.error "Corner points form a self-intersecting quadrilateral") ∧
    (PointValidator.validate_points rectPoints w h = Except.ok ()) ∧
    (PointValidator.validate_points
      [(-100, -100), (200, -100), (200, 200), (-100, 200)] 10 10 =
      Except.ok ()) := by
  refine ⟨?_, ?_, rfl, rfl, rfl, rfl⟩
  · simp only [PointValidator.validate_points]
    rw [if_neg (show ¬ ([a, b, c, d] : List Point).length ≠ 4 by simp)]
    simp only [PointValidator.is_self_intersecting]
    constructor
    · intro hok
      by_cases hb : (PointValidator.segments_intersect a b c d ||
          PointValidator.segments_intersect b c d a) = true
      · rw [if_pos hb] at hok
        exact absurd hok (by simp)
      · simp only [Bool.or_eq_true, not_or, Bool.not_eq_true] at hb
        exact hb
    · rintro ⟨h1, h2⟩
      rw [if_neg (show ¬ ((PointValidator.segments_intersect a b c d ||
          PointValidator.segments_intersect b c d a) = true) by simp [h1, h2])]
  · intro hlen
    simp only [PointValidator.validate_points]
    rw [if_pos hlen]

/-- Witness for claim C4 (amended) at a one-point list. -/
theorem claim_C4_witness :
    PointValidator.validate_points [((0 : Int), (0 : Int))] 5 5 =
      Except.error "Expected 4 corner points" :=
  (claim_C4_amended (0, 0) (0, 0) (0, 0) (0, 0) [(0, 0)] 5 5 5 5).2.1
    (by decide)

end ProductCardGen
